import Mathlib

/-!
# MexCine single-page client — formal model

Shallow embedding of the React component in `src/unnamed/part_000`
(the most advanced variant of the MexCine client, the one with
client-side pagination), together with an interleaving model for the
asynchronous request/response cycle.  The sibling variant
`src/frontend/src/App.jsx` has the same search/reset logic minus the
`cantidadVisible` pagination state and with a different error text.

State fields (the five `useState` hooks):
  `descripcion`      — the query text (string)
  `recomendaciones`  — the stored response payload (a JS value)
  `estadoApp`        — the finite state string
  `error`            — the error message (string or null)
  `cantidadVisible`  — the pagination limit (JS number, here `Int`)
-/

namespace MexCine

/-- One movie record as described by the response shape
`\x7btitulo, anio?, genero, sinopsis\x7d`. -/
structure Recomendacion where
  titulo : String
  anio : Option Int
  genero : String
  sinopsis : String
deriving DecidableEq, Repr

/-- The five values of the `estadoApp` state string:
`'buscando' | 'cargando' | 'resultados' | 'sin_resultados' | 'error'`. -/
inductive EstadoApp where
  | buscando
  | cargando
  | resultados
  | sin_resultados
  | error
deriving DecidableEq, Repr

/-- The JS value stored in `respuesta.data` (and hence in
`recomendaciones`, since `setRecomendaciones(respuesta.data)` stores it
unchanged).  `arr` is a genuine JSON array; `str` and `obj` model
malformed (non-array) 2xx payloads — a string (unparsed body) and a
plain object; `nulo` models `null`/`undefined`/absent data. -/
inductive Dato where
  | arr (items : List Recomendacion)
  | str (s : String)
  | obj
  | nulo
deriving DecidableEq, Repr

/-- JS truthiness of a `Dato`: arrays and objects are truthy (including
`[]` and `\x7b\x7d`), a string is truthy iff non-empty, `null`/`undefined`
are falsy. -/
def esTruthy : Dato → Bool
  | .arr _ => true
  | .str s => !s.isEmpty
  | .obj => true
  | .nulo => false

/-- JS evaluation of `x.length > 0`: arrays and strings have a numeric
`length`; on a plain object `.length` is `undefined` and
`undefined > 0` evaluates to `false`. -/
def longitudPositiva : Dato → Bool
  | .arr l => decide (0 < l.length)
  | .str s => decide (0 < s.length)
  | .obj => false
  | .nulo => false

/-- The guard `respuesta.data && respuesta.data.length > 0`
(short-circuit conjunction). -/
def datosNoVacios (d : Dato) : Bool :=
  esTruthy d && longitudPositiva d

/-- Outcome of `await axios.post(...)`: `exito` is a resolved promise
(2xx) carrying `respuesta.data`; `fallo` is a rejected promise (network
error or non-2xx status), carrying the raw error as a string. -/
inductive Respuesta where
  | exito (data : Dato)
  | fallo (err : String)
deriving DecidableEq, Repr

/-- The component state: the five `useState` hooks of `App`. -/
structure AppState where
  descripcion : String
  recomendaciones : Dato
  estadoApp : EstadoApp
  error : Option String
  cantidadVisible : Int
deriving DecidableEq, Repr

/-- Initial state: `useState("")`, `useState([])`, `useState("buscando")`,
`useState(null)`, `useState(3)`. -/
def estadoInicial : AppState :=
  { descripcion := ""
    recomendaciones := .arr []
    estadoApp := .buscando
    error := none
    cantidadVisible := 3 }

/-- ECMAScript `String.prototype.trim()`: strips leading and trailing
whitespace.  Defined over the character list so it evaluates by
kernel reduction. -/
def jsTrim (s : String) : String :=
  ⟨((s.data.dropWhile Char.isWhitespace).reverse.dropWhile
      Char.isWhitespace).reverse⟩

/-- The fixed user-facing error text set in the `catch` branch. -/
def mensajeErrorConexion : String :=
  "No se pudo establecer conexión con el motor de recomendación."

/-- State updates of `handleBuscar` performed before the `await`
(once the empty-query guard has passed): `setError(null)`,
`setEstadoApp("cargando")`, `setCantidadVisible(3)`. -/
def antesDeEsperar (s : AppState) : AppState :=
  { s with error := none, estadoApp := .cargando, cantidadVisible := 3 }

/-- The continuation of `handleBuscar` after the `await` resolves or
rejects: the `if/else` on `respuesta.data && respuesta.data.length > 0`
and the `catch` branch. -/
def aplicaRespuesta (s : AppState) : Respuesta → AppState
  | .exito data =>
      if datosNoVacios data then
        { s with recomendaciones := data, estadoApp := .resultados }
      else
        { s with recomendaciones := .arr [], estadoApp := .sin_resultados }
  | .fallo _err =>
      { s with error := some mensajeErrorConexion, estadoApp := .error }

/-- One full run of `handleBuscar` given the outcome of the single
`axios.post` call: the guard `if (descripcion.trim() === "") return;`
followed by the pre-await updates and the response continuation. -/
def handleBuscar (s : AppState) (resp : Respuesta) : AppState :=
  if jsTrim s.descripcion = "" then s
  else aplicaRespuesta (antesDeEsperar s) resp

/-- The JSON body of the POST request, `\x7b descripcion: descripcion \x7d`. -/
structure CuerpoPeticion where
  descripcion : String
deriving DecidableEq, Repr

/-- The request dispatched by one invocation of `handleBuscar`: `none`
when the trimmed query is empty (the guard returns before `axios.post`),
otherwise exactly one POST body carrying the untrimmed query. -/
def peticionDespachada (s : AppState) : Option CuerpoPeticion :=
  if jsTrim s.descripcion = "" then none
  else some { descripcion := s.descripcion }

/-- `volverABuscar`: resets all five state hooks. -/
def volverABuscar (_s : AppState) : AppState :=
  { descripcion := ""
    recomendaciones := .arr []
    estadoApp := .buscando
    error := none
    cantidadVisible := 3 }

/-- `mostrarMas`: `setCantidadVisible(prev => prev + 3)`.  The
`window.scrollTo` call touches only the viewport, not component state. -/
def mostrarMas (s : AppState) : AppState :=
  { s with cantidadVisible := s.cantidadVisible + 3 }

/-- ECMAScript `Array.prototype.slice(inicio, fin)`: negative indices
count from the end, both bounds are clamped to `[0, length]`, and the
result holds the elements at indices `[k, final)`. -/
def jsSlice (l : List α) (inicio fin : Int) : List α :=
  let len : Int := l.length
  let k : Int := if inicio < 0 then max (len + inicio) 0 else min inicio len
  let f : Int := if fin < 0 then max (len + fin) 0 else min fin len
  (l.drop k.toNat).take (f - k).toNat

/-- The window computed by `renderResultados`:
`recomendaciones.slice(cantidadVisible - 3, cantidadVisible)`. -/
def peliculasVisibles (recs : List Recomendacion) (cantidadVisible : Int) :
    List Recomendacion :=
  jsSlice recs (cantidadVisible - 3) cantidadVisible

/-- The guard `hayMasOpciones = cantidadVisible < recomendaciones.length`
controlling whether the show-more button is rendered. -/
def hayMasOpciones (recs : List Recomendacion) (cantidadVisible : Int) :
    Bool :=
  decide (cantidadVisible < (recs.length : Int))

/-- User-visible events of the component, for reachability reasoning:
typing in the input (`onChange`), a full search round trip, the
show-more button, and the reset button. -/
inductive Evento where
  | escribir (texto : String)
  | buscar (resp : Respuesta)
  | masOpciones
  | reiniciar
deriving DecidableEq, Repr

/-- Sequential small-step semantics of the component. -/
def paso (s : AppState) : Evento → AppState
  | .escribir t => { s with descripcion := t }
  | .buscar r => handleBuscar s r
  | .masOpciones => mostrarMas s
  | .reiniciar => volverABuscar s

/-- Run a sequence of events from the initial state. -/
def ejecuta (evs : List Evento) : AppState :=
  evs.foldl paso estadoInicial

/-!
## Asynchronous model

`handleBuscar` suspends at the `await`, so a second invocation can run
while a request is still in flight.  We model the component plus its
pending requests: `enVuelo` counts the dispatched requests whose
continuations have not yet run.  `despachar` is a user-triggered
`handleBuscar` up to the `await` (the search controls are rendered only
in the `buscando` and `cargando` states — the render condition
`(estadoApp === 'buscando' || estadoApp === 'cargando')`); `llegar r`
is one pending promise settling with outcome `r`, which runs the
continuation on the then-current state. -/

/-- Whether the search input and button are rendered (so a submit can
fire): `estadoApp === 'buscando' || estadoApp === 'cargando'`. -/
def botonBuscarVisible (s : AppState) : Bool :=
  s.estadoApp = EstadoApp.buscando || s.estadoApp = EstadoApp.cargando

/-- The component together with its in-flight request count. -/
structure Sistema where
  app : AppState
  enVuelo : Nat
deriving DecidableEq, Repr

/-- Atomic steps of the asynchronous model. -/
inductive AccionAsinc where
  | despachar
  | llegar (resp : Respuesta)
deriving DecidableEq, Repr

/-- Interleaved small-step semantics: a dispatch runs the pre-await
part of `handleBuscar` and adds one in-flight request; an arrival runs
the post-await continuation of one pending request. -/
def pasoAsinc (σ : Sistema) : AccionAsinc → Sistema
  | .despachar =>
      if botonBuscarVisible σ.app then
        if jsTrim σ.app.descripcion = "" then σ
        else { app := antesDeEsperar σ.app, enVuelo := σ.enVuelo + 1 }
      else σ
  | .llegar r =>
      if σ.enVuelo = 0 then σ
      else { app := aplicaRespuesta σ.app r, enVuelo := σ.enVuelo - 1 }

/-- Run a sequence of asynchronous actions. -/
def ejecutaAsinc (σ : Sistema) (tr : List AccionAsinc) : Sistema :=
  tr.foldl pasoAsinc σ

/-!
## Concrete example values used by witnesses and counterexamples
-/

/-- A sample movie record. -/
def peliEjemplo : Recomendacion :=
  { titulo := "Macario"
    anio := some 1960
    genero := "Drama"
    sinopsis := "Un campesino comparte su guajolote con la Muerte." }

/-- A state whose query is non-empty after trimming. -/
def estadoConConsulta : AppState :=
  { estadoInicial with descripcion := "brujas" }

/-- A seven-element results list. -/
def listaSiete : List Recomendacion :=
  [ { titulo := "p0", anio := none, genero := "g", sinopsis := "s" }
  , { titulo := "p1", anio := none, genero := "g", sinopsis := "s" }
  , { titulo := "p2", anio := none, genero := "g", sinopsis := "s" }
  , { titulo := "p3", anio := none, genero := "g", sinopsis := "s" }
  , { titulo := "p4", anio := none, genero := "g", sinopsis := "s" }
  , { titulo := "p5", anio := none, genero := "g", sinopsis := "s" }
  , { titulo := "p6", anio := none, genero := "g", sinopsis := "s" } ]

/-- A state holding a results list, as left by a successful search. -/
def estadoResultados (l : List Recomendacion) : AppState :=
  { estadoInicial with
    recomendaciones := Dato.arr l, estadoApp := EstadoApp.resultados }

/-- The component with a pending query and no request in flight. -/
def sistemaListo : Sistema :=
  { app := estadoConConsulta, enVuelo := 0 }

/-!
## Helper lemmas
-/

/-- The response continuation never touches `cantidadVisible`. -/
lemma aplicaRespuesta_cantidadVisible (s : AppState) (r : Respuesta) :
    (aplicaRespuesta s r).cantidadVisible = s.cantidadVisible := by
  cases r with
  | exito d =>
      by_cases h : datosNoVacios d = true <;> simp [aplicaRespuesta, h]
  | fallo e => rfl

/-!
## Claims
-/

/-- Claim C3: for every query that trims to the empty string, the submit
handler returns the state unchanged whatever the transport would have
answered, and no request body is dispatched. -/
theorem submit_con_consulta_vacia_es_noop (s : AppState)
    (h : jsTrim s.descripcion = "") :
    (∀ resp, handleBuscar s resp = s) ∧ peticionDespachada s = none := by
  refine ⟨fun resp => ?_, ?_⟩ <;> simp [handleBuscar, peticionDespachada, h]

/-- Witness for C3 at the whitespace-only query `"   "`. -/
theorem submit_con_consulta_vacia_es_noop_testigo :
    handleBuscar { estadoInicial with descripcion := "   " }
        (Respuesta.fallo "Network Error")
      = { estadoInicial with descripcion := "   " } ∧
    peticionDespachada { estadoInicial with descripcion := "   " } = none :=
  have h := submit_con_consulta_vacia_es_noop
    { estadoInicial with descripcion := "   " } (by decide)
  ⟨h.1 (Respuesta.fallo "Network Error"), h.2⟩

/-- Claim C4: a successful response carrying an array of `N ≥ 1` items
ends in the `resultados` state with that very array stored. -/
theorem respuesta_con_items_da_resultados (s : AppState)
    (l : List Recomendacion)
    (hq : jsTrim s.descripcion ≠ "") (hl : 1 ≤ l.length) :
    (handleBuscar s (Respuesta.exito (Dato.arr l))).estadoApp
        = EstadoApp.resultados ∧
    (handleBuscar s (Respuesta.exito (Dato.arr l))).recomendaciones
        = Dato.arr l := by
  have hd : datosNoVacios (Dato.arr l) = true := by
    simp [datosNoVacios, esTruthy, longitudPositiva]
    omega
  simp [handleBuscar, hq, aplicaRespuesta, hd, antesDeEsperar]

/-- Witness for C4: one stored item. -/
theorem respuesta_con_items_da_resultados_testigo :
    (handleBuscar estadoConConsulta
        (Respuesta.exito (Dato.arr [peliEjemplo]))).estadoApp
        = EstadoApp.resultados ∧
    (handleBuscar estadoConConsulta
        (Respuesta.exito (Dato.arr [peliEjemplo]))).recomendaciones
        = Dato.arr [peliEjemplo] :=
  respuesta_con_items_da_resultados estadoConConsulta [peliEjemplo]
    (by decide) (by decide)

/-- Claim C5: a successful response carrying the empty array ends in the
`sin_resultados` state with the stored list cleared to `[]`. -/
theorem respuesta_vacia_da_sin_resultados (s : AppState)
    (hq : jsTrim s.descripcion ≠ "") :
    (handleBuscar s (Respuesta.exito (Dato.arr []))).estadoApp
        = EstadoApp.sin_resultados ∧
    (handleBuscar s (Respuesta.exito (Dato.arr []))).recomendaciones
        = Dato.arr [] := by
  simp [handleBuscar, hq, aplicaRespuesta, datosNoVacios, esTruthy,
    longitudPositiva, antesDeEsperar]

/-- Witness for C5. -/
theorem respuesta_vacia_da_sin_resultados_testigo :
    (handleBuscar estadoConConsulta
        (Respuesta.exito (Dato.arr []))).estadoApp
        = EstadoApp.sin_resultados ∧
    (handleBuscar estadoConConsulta
        (Respuesta.exito (Dato.arr []))).recomendaciones
        = Dato.arr [] :=
  respuesta_vacia_da_sin_resultados estadoConConsulta (by decide)

/-- Claim C6: the reset handler, from any state whatsoever (so in
particular from `resultados`, `sin_resultados` and `error`), yields the
`buscando` state with empty query, empty list, null error and the
visible count back at the initial page size 3. -/
theorem reset_restaura_estado_inicial (s : AppState) :
    (volverABuscar s).estadoApp = EstadoApp.buscando ∧
    (volverABuscar s).descripcion = "" ∧
    (volverABuscar s).recomendaciones = Dato.arr [] ∧
    (volverABuscar s).error = none ∧
    (volverABuscar s).cantidadVisible = 3 :=
  ⟨rfl, rfl, rfl, rfl, rfl⟩

/-- Claim C7: with a non-empty trimmed query the handler, before the
`await`, moves to `cargando`, clears the error, resets the visible
count to 3 and leaves the query and stored list untouched; exactly one
POST body carrying the query is dispatched; and the final state of the
round trip is exactly the response continuation applied to that
intermediate state. -/
theorem submit_pasa_a_cargando_y_despacha (s : AppState)
    (hq : jsTrim s.descripcion ≠ "") :
    (antesDeEsperar s).estadoApp = EstadoApp.cargando ∧
    (antesDeEsperar s).error = none ∧
    (antesDeEsperar s).cantidadVisible = 3 ∧
    (antesDeEsperar s).descripcion = s.descripcion ∧
    (antesDeEsperar s).recomendaciones = s.recomendaciones ∧
    peticionDespachada s = some { descripcion := s.descripcion } ∧
    (∀ resp, handleBuscar s resp = aplicaRespuesta (antesDeEsperar s) resp)
    := by
  refine ⟨rfl, rfl, rfl, rfl, rfl, ?_, fun resp => ?_⟩ <;>
    simp [peticionDespachada, handleBuscar, hq]

/-- Witness for C7 at the query `"brujas"`. -/
theorem submit_pasa_a_cargando_y_despacha_testigo :
    (antesDeEsperar estadoConConsulta).estadoApp = EstadoApp.cargando ∧
    (antesDeEsperar estadoConConsulta).cantidadVisible = 3 ∧
    peticionDespachada estadoConConsulta = some { descripcion := "brujas" } ∧
    handleBuscar estadoConConsulta (Respuesta.fallo "timeout")
      = aplicaRespuesta (antesDeEsperar estadoConConsulta)
          (Respuesta.fallo "timeout") :=
  have h := submit_pasa_a_cargando_y_despacha estadoConConsulta (by decide)
  ⟨h.1, h.2.2.1, h.2.2.2.2.2.1, h.2.2.2.2.2.2 (Respuesta.fallo "timeout")⟩

/-- Claim C10: the `catch` branch leaves the stored recommendations (and
the query) untouched: a transport failure only sets the error message
and the view state, so items from a previous successful search survive
into the `error` state. -/
theorem fallo_no_toca_recomendaciones (s : AppState) (err : String)
    (hq : jsTrim s.descripcion ≠ "") :
    (handleBuscar s (Respuesta.fallo err)).recomendaciones
        = s.recomendaciones ∧
    (handleBuscar s (Respuesta.fallo err)).descripcion = s.descripcion ∧
    (handleBuscar s (Respuesta.fallo err)).estadoApp = EstadoApp.error ∧
    (handleBuscar s (Respuesta.fallo err)).error
        = some mensajeErrorConexion := by
  simp [handleBuscar, hq, aplicaRespuesta, antesDeEsperar]

/-- Witness for C10: items from a previous search survive a failure. -/
theorem fallo_no_toca_recomendaciones_testigo :
    (handleBuscar
        { estadoConConsulta with recomendaciones := Dato.arr [peliEjemplo] }
        (Respuesta.fallo "ERR_CONNECTION_REFUSED")).recomendaciones
      = Dato.arr [peliEjemplo] ∧
    (handleBuscar
        { estadoConConsulta with recomendaciones := Dato.arr [peliEjemplo] }
        (Respuesta.fallo "ERR_CONNECTION_REFUSED")).estadoApp
      = EstadoApp.error :=
  have h := fallo_no_toca_recomendaciones
    { estadoConConsulta with recomendaciones := Dato.arr [peliEjemplo] }
    "ERR_CONNECTION_REFUSED" (by decide)
  ⟨h.1, h.2.2.1⟩

/-- Counterexample to C1 as stated: a successful (2xx) response with a
malformed, non-array payload does not reach the `error` state.  The
guard `respuesta.data && respuesta.data.length > 0` classifies a plain
object (whose `.length` is `undefined`) into `sin_resultados`, and a
non-empty string payload (an unparsed body: truthy, positive `.length`)
even into `resultados`. -/
theorem carga_malformada_no_da_error :
    (handleBuscar estadoConConsulta (Respuesta.exito Dato.obj)).estadoApp
        = EstadoApp.sin_resultados ∧
    (handleBuscar estadoConConsulta
        (Respuesta.exito (Dato.str "pagina de error"))).estadoApp
        = EstadoApp.resultados ∧
    EstadoApp.sin_resultados ≠ EstadoApp.error ∧
    EstadoApp.resultados ≠ EstadoApp.error := by
  decide

/-- Claim C1 (amended): a rejected request (network error or non-2xx
response) always ends in `error` with the fixed, non-empty, user-facing
message — independent of the raw error value; a resolved (2xx) response
is classified only by the guard `data && data.length > 0`: when it holds
the state is `resultados`, otherwise (empty array, absent data, or a
payload without positive length) the state is `sin_resultados`. -/
theorem clasificacion_de_respuesta (s : AppState)
    (hq : jsTrim s.descripcion ≠ "") :
    (∀ err,
      (handleBuscar s (Respuesta.fallo err)).estadoApp = EstadoApp.error ∧
      (handleBuscar s (Respuesta.fallo err)).error
          = some mensajeErrorConexion) ∧
    mensajeErrorConexion ≠ "" ∧
    (∀ d, datosNoVacios d = true →
      (handleBuscar s (Respuesta.exito d)).estadoApp
          = EstadoApp.resultados) ∧
    (∀ d, datosNoVacios d = false →
      (handleBuscar s (Respuesta.exito d)).estadoApp
          = EstadoApp.sin_resultados) := by
  refine ⟨fun err => ?_, by decide, fun d hd => ?_, fun d hd => ?_⟩
  · simp [handleBuscar, hq, aplicaRespuesta]
  · simp [handleBuscar, hq, aplicaRespuesta, hd]
  · simp [handleBuscar, hq, aplicaRespuesta, hd]

/-- Witness for the amended C1. -/
theorem clasificacion_de_respuesta_testigo :
    (handleBuscar estadoConConsulta
        (Respuesta.fallo "Network Error")).estadoApp = EstadoApp.error ∧
    (handleBuscar estadoConConsulta
        (Respuesta.fallo "Network Error")).error
        = some mensajeErrorConexion ∧
    mensajeErrorConexion ≠ "" ∧
    (handleBuscar estadoConConsulta
        (Respuesta.exito (Dato.arr [peliEjemplo]))).estadoApp
        = EstadoApp.resultados ∧
    (handleBuscar estadoConConsulta
        (Respuesta.exito Dato.nulo)).estadoApp
        = EstadoApp.sin_resultados :=
  have h := clasificacion_de_respuesta estadoConConsulta (by decide)
  ⟨(h.1 "Network Error").1, (h.1 "Network Error").2, h.2.1,
    h.2.2.1 _ (by decide), h.2.2.2 _ (by decide)⟩

/-- Claim C2: over a stored list of 7 results starting at
`cantidadVisible = 3`, one show-more activation gives count 6 and the
window `slice(3, 6)` (the items at indices 3, 4, 5), a second gives
count 9 and the clamped window `slice(6, 9)`, which is exactly the
items from index 6 on; the show-more button is rendered iff
`cantidadVisible < 7`. -/
theorem paginacion_ventana_deslizante (l : List Recomendacion)
    (h : l.length = 7) :
    (estadoResultados l).cantidadVisible = 3 ∧
    (mostrarMas (estadoResultados l)).cantidadVisible = 6 ∧
    peliculasVisibles l (mostrarMas (estadoResultados l)).cantidadVisible
        = (l.drop 3).take 3 ∧
    (mostrarMas (mostrarMas (estadoResultados l))).cantidadVisible = 9 ∧
    peliculasVisibles l
        (mostrarMas (mostrarMas (estadoResultados l))).cantidadVisible
        = l.drop 6 ∧
    (∀ cv : Int, hayMasOpciones l cv = true ↔ cv < 7) := by
  refine ⟨rfl, rfl, ?_, rfl, ?_, fun cv => ?_⟩
  · show peliculasVisibles l 6 = (l.drop 3).take 3
    simp [peliculasVisibles, jsSlice, h]
  · show peliculasVisibles l 9 = l.drop 6
    simp [peliculasVisibles, jsSlice, h]
  · simp [hayMasOpciones, h]

/-- Witness for C2 on a concrete seven-element list. -/
theorem paginacion_ventana_deslizante_testigo :
    peliculasVisibles listaSiete 6 = (listaSiete.drop 3).take 3 ∧
    peliculasVisibles listaSiete 9 = listaSiete.drop 6 ∧
    (hayMasOpciones listaSiete 6 = true ↔ (6 : Int) < 7) :=
  have h := paginacion_ventana_deslizante listaSiete (by decide)
  ⟨h.2.2.1, h.2.2.2.2.1, h.2.2.2.2.2 6⟩

/-- Counterexample to C8 as stated: the search controls are still
rendered while `cargando`, so a second submit while a request is in
flight dispatches a second request (two in flight at once), and the
same pair of responses applied in the two possible arrival orders
yields different final states — the responses race. -/
theorem respuestas_en_vuelo_compiten :
    (ejecutaAsinc sistemaListo
        [AccionAsinc.despachar, AccionAsinc.despachar]).enVuelo = 2 ∧
    (ejecutaAsinc sistemaListo
        [AccionAsinc.despachar, AccionAsinc.despachar,
         AccionAsinc.llegar (Respuesta.exito (Dato.arr [peliEjemplo])),
         AccionAsinc.llegar (Respuesta.fallo "Network Error")]).app.estadoApp
        = EstadoApp.error ∧
    (ejecutaAsinc sistemaListo
        [AccionAsinc.despachar, AccionAsinc.despachar,
         AccionAsinc.llegar (Respuesta.fallo "Network Error"),
         AccionAsinc.llegar (Respuesta.exito (Dato.arr [peliEjemplo]))]).app.estadoApp
        = EstadoApp.resultados ∧
    EstadoApp.error ≠ EstadoApp.resultados := by
  decide

/-- Claim C8 (amended): each submit with a non-empty trimmed query,
fired while the search controls are rendered, issues exactly one
outbound call (the in-flight count rises by exactly one and the state
undergoes exactly the pre-await updates), and each settled request
applies exactly one response transition (the in-flight count falls by
one and the state is updated by the response continuation).  There is,
however, no protection against overlap: a submit during `cargando` is
neither ignored nor cancels the prior request, so responses apply in
arrival order. -/
theorem despacho_unico_por_submit (σ : Sistema)
    (hq : jsTrim σ.app.descripcion ≠ "")
    (hv : botonBuscarVisible σ.app = true) :
    (pasoAsinc σ AccionAsinc.despachar).enVuelo = σ.enVuelo + 1 ∧
    (pasoAsinc σ AccionAsinc.despachar).app = antesDeEsperar σ.app ∧
    ∀ r, σ.enVuelo ≠ 0 →
      (pasoAsinc σ (AccionAsinc.llegar r)).enVuelo = σ.enVuelo - 1 ∧
      (pasoAsinc σ (AccionAsinc.llegar r)).app = aplicaRespuesta σ.app r
    := by
  refine ⟨?_, ?_, fun r hr => ⟨?_, ?_⟩⟩
  · simp [pasoAsinc, hv, hq]
  · simp [pasoAsinc, hv, hq]
  · simp [pasoAsinc, hr]
  · simp [pasoAsinc, hr]

/-- Witness for the amended C8 with one request already in flight. -/
theorem despacho_unico_por_submit_testigo :
    (pasoAsinc { app := estadoConConsulta, enVuelo := 1 }
        AccionAsinc.despachar).enVuelo = 2 ∧
    (pasoAsinc { app := estadoConConsulta, enVuelo := 1 }
        (AccionAsinc.llegar (Respuesta.fallo "timeout"))).app
      = aplicaRespuesta estadoConConsulta (Respuesta.fallo "timeout") :=
  have h := despacho_unico_por_submit
    { app := estadoConConsulta, enVuelo := 1 } (by decide) (by decide)
  ⟨h.1, (h.2.2 (Respuesta.fallo "timeout") (by decide)).2⟩

/-- One step preserves `3 ≤ cantidadVisible ∧ 3 ∣ cantidadVisible`. -/
lemma paso_mantiene_cantidadVisible (s : AppState) (e : Evento)
    (h3 : 3 ≤ s.cantidadVisible) (hd : 3 ∣ s.cantidadVisible) :
    3 ≤ (paso s e).cantidadVisible ∧ 3 ∣ (paso s e).cantidadVisible := by
  cases e with
  | escribir t => exact ⟨h3, hd⟩
  | buscar r =>
      by_cases hq : jsTrim s.descripcion = ""
      · simp only [paso, handleBuscar, hq, if_pos]
        exact ⟨h3, hd⟩
      · have hcv : (aplicaRespuesta (antesDeEsperar s) r).cantidadVisible
            = 3 := aplicaRespuesta_cantidadVisible (antesDeEsperar s) r
        simp only [paso, handleBuscar, hq, if_neg, ite_false, hcv]
        exact ⟨le_refl 3, dvd_refl 3⟩
  | masOpciones =>
      exact ⟨by simp only [paso, mostrarMas]; omega,
        by simp only [paso, mostrarMas]; exact dvd_add hd (dvd_refl 3)⟩
  | reiniciar => exact ⟨le_refl 3, dvd_refl 3⟩

/-- Every reachable state keeps the visible count at a positive
multiple of three. -/
lemma ejecuta_cantidadVisible (evs : List Evento) :
    3 ≤ (ejecuta evs).cantidadVisible ∧ 3 ∣ (ejecuta evs).cantidadVisible
    := by
  suffices h : ∀ s : AppState, 3 ≤ s.cantidadVisible →
      3 ∣ s.cantidadVisible →
      3 ≤ (evs.foldl paso s).cantidadVisible ∧
        3 ∣ (evs.foldl paso s).cantidadVisible from
    h estadoInicial (by decide) (by decide)
  induction evs with
  | nil => exact fun s h3 hd => ⟨h3, hd⟩
  | cons e evs ih =>
      intro s h3 hd
      have hp := paso_mantiene_cantidadVisible s e h3 hd
      exact ih (paso s e) hp.1 hp.2

/-- The rendered window never holds more than three items, whatever
the count. -/
lemma longitud_ventana_le (l : List Recomendacion) (cv : Int) :
    (peliculasVisibles l cv).length ≤ 3 := by
  simp only [peliculasVisibles, jsSlice]
  split_ifs <;> simp only [List.length_take, List.length_drop] <;> omega

/-- Claim C9: in every state reachable by any event sequence the
visible count is a positive multiple of 3 (it starts at 3, each
show-more adds exactly 3, each passed dispatch guard and each reset
restore 3), so the window `slice(cantidadVisible - 3, cantidadVisible)`
starts at a non-negative index and holds at most 3 items. -/
theorem cantidad_visible_invariante (evs : List Evento) :
    (3 ≤ (ejecuta evs).cantidadVisible ∧
      3 ∣ (ejecuta evs).cantidadVisible) ∧
    0 ≤ (ejecuta evs).cantidadVisible - 3 ∧
    (∀ l : List Recomendacion,
      (peliculasVisibles l (ejecuta evs).cantidadVisible).length ≤ 3) ∧
    estadoInicial.cantidadVisible = 3 ∧
    (∀ s, (mostrarMas s).cantidadVisible = s.cantidadVisible + 3) ∧
    (∀ s, (antesDeEsperar s).cantidadVisible = 3) ∧
    (∀ s, (volverABuscar s).cantidadVisible = 3) := by
  obtain ⟨h3, hd⟩ := ejecuta_cantidadVisible evs
  exact ⟨⟨h3, hd⟩, by omega, fun l => longitud_ventana_le l _, rfl,
    fun s => rfl, fun s => rfl, fun s => rfl⟩

end MexCine
